import Mathlib

/-!
Verification of the cgwasm orchestrator (src/src/main.rs) against its
specification.  The Rust source is shallowly embedded: pure computations
become Lean functions, fallible steps become Except values, machine
integers become Nat (Rust saturating arithmetic maps to truncated Nat
subtraction and plain Nat operations with explicit clamps).
-/

namespace Cgwasm

/-- Outcome of a std::io file read, distinguishing the NotFound error kind
(matched specially in main.rs lines 271 and 282) from all other error kinds. -/
inductive ReadFile where
  | ok (content : String)
  | errNotFound
  | errOther
deriving DecidableEq, Repr

/-- Model of Rust str::trim on the character list: drop whitespace from both
ends. -/
def trimChars (l : List Char) : List Char :=
  ((l.dropWhile Char.isWhitespace).reverse.dropWhile Char.isWhitespace).reverse

/-- Model of Rust str::trim. -/
def strTrim (s : String) : String :=
  ⟨trimChars s.data⟩

/-- Accumulate decimal digits; any non-digit character fails the parse. -/
def parseDigits (l : List Char) : Option Nat :=
  l.foldl
    (fun acc c =>
      match acc with
      | some a => if c.isDigit then some (a * 10 + (c.toNat - 48)) else none
      | none => none)
    (some 0)

/-- Model of Rust usize::from_str: an optional leading plus sign followed by
one or more decimal digits (the Nat model has no overflow). -/
def parseNat? (s : String) : Option Nat :=
  match s.data with
  | [] => none
  | '+' :: rest => if rest = [] then none else parseDigits rest
  | l => parseDigits l

/-- Model of Rust str::split_whitespace on the character list: the maximal
runs of non-whitespace characters, in order.  The accumulator holds the
current word reversed. -/
def wordsAux : List Char → List Char → List String
  | [], acc => if acc.isEmpty then [] else [⟨acc.reverse⟩]
  | c :: rest, acc =>
    if c.isWhitespace then
      if acc.isEmpty then wordsAux rest [] else ⟨acc.reverse⟩ :: wordsAux rest []
    else
      wordsAux rest (c :: acc)

/-- Model of Rust str::split_whitespace. -/
def splitWhitespace (s : String) : List String :=
  wordsAux s.data []

/-- One step of the controller fold of main.rs lines 301-324: append the
token to the accumulated enable string when it is cpuset, cpu or pids,
prefixed by a space unless the accumulator is still empty; any other token
leaves the accumulator unchanged. -/
def appendController (s : String) (c : String) : String :=
  if c = "cpuset" then
    if s = "" then s ++ "+cpuset" else s ++ " +cpuset"
  else if c = "cpu" then
    if s = "" then s ++ "+cpu" else s ++ " +cpu"
  else if c = "pids" then
    if s = "" then s ++ "+pids" else s ++ " +pids"
  else
    s

/-- The controller-enable string construction of main.rs lines 297-325: fold
appendController over the whitespace-separated tokens of the
cgroup.controllers contents, starting from the empty accumulator
(String::with_capacity). -/
def controllerEnableString (input : String) : String :=
  (splitWhitespace input).foldl appendController ""

/-- Membership in the supported controller subset cpuset, cpu, pids. -/
def supportedController (c : String) : Bool :=
  decide (c = "cpuset") || decide (c = "cpu") || decide (c = "pids")

/-- Space-join a list of strings: first element verbatim, every further
element preceded by a single space. -/
def spaceJoin : List String → String
  | [] => ""
  | a :: as => a ++ String.join (as.map (fun t => " " ++ t))

/-- The replica-count derivation of main.rs lines 247-290, starting from the
already-parsed required limits (threads-max, NPROC, NOFILE; an unreadable or
unparsable required file aborts before this point) and the raw read results of
the pids.max and pids.current files.  Rust str::trim / usize::from_str are
modelled by strTrim / parseNat? above; usize saturating_sub is Nat
subtraction.  The error case models the fatal parse failures of pids.max /
pids.current contents (the with_context(...)? calls). -/
def deriveCount (threadsMax nproc nofile : Nat)
    (pidsMax pidsCurrent : ReadFile) : Except Unit Nat :=
  let count := Nat.min threadsMax (Nat.min nproc nofile)
  match pidsMax with
  | .ok s =>
    if strTrim s = "max" then
      .ok count
    else
      match parseNat? (strTrim s) with
      | none => .error ()
      | some pidsMaxN =>
        match pidsCurrent with
        | .ok c =>
          match parseNat? (strTrim c) with
          | none => .error ()
          | some pidsCurrentN => .ok (Nat.min count (pidsMaxN - pidsCurrentN))
        | .errNotFound => .ok (Nat.min count pidsMaxN)
        | .errOther => .ok count
  | .errNotFound => .ok count
  | .errOther => .ok count

/-- The full count selection of main.rs lines 223-291: an explicit --count
value is trusted verbatim, otherwise the probed count is divided by 4
(saturating_div) and floored at 1. -/
def computeCount (explicit : Option Nat) (threadsMax nproc nofile : Nat)
    (pidsMax pidsCurrent : ReadFile) : Except Unit Nat :=
  match explicit with
  | some c => .ok c
  | none =>
    (deriveCount threadsMax nproc nofile pidsMax pidsCurrent).map
      fun c => Nat.max (c / 4) 1

/-- Result of a std::env::var lookup: present with a string value, absent,
or present but not valid UTF-8. -/
inductive EnvVar where
  | val (s : String)
  | notPresent
  | notUnicode

/-- The getenv helper of main.rs lines 38-55: parse a present value with the
knob's parser; an absent variable, a value the parser rejects (logged and
ignored) and a non-UTF-8 value all yield none. -/
def getenv {T : Type} (var : EnvVar) (parse : String → Option T) : Option T :=
  match var with
  | .val s =>
    match parse s with
    | some v => some v
    | none => none
  | .notPresent => none
  | .notUnicode => none

/-- The sizing knobs of the wasmtime PoolingAllocationConfig touched by
new_pooling_config, one field per knob in source order (the config also
carries further knobs the program never touches; those are dropped here).
The wasmtime default values are external to this repository, so the default
configuration is passed as a parameter wherever it is needed. -/
structure PoolingAllocationConfig where
  max_unused_warm_slots : Nat
  decommit_batch_size : Nat
  async_stack_zeroing : Bool
  async_stack_keep_resident : Nat
  linear_memory_keep_resident : Nat
  table_keep_resident : Nat
  total_component_instances : Nat
  max_component_instance_size : Nat
  max_core_instances_per_component : Nat
  max_memories_per_component : Nat
  max_tables_per_component : Nat
  total_memories : Nat
  total_tables : Nat
  total_stacks : Nat
  total_core_instances : Nat
  max_core_instance_size : Nat
  max_tables_per_module : Nat
  table_elements : Nat
  max_memories_per_module : Nat
  max_memory_size : Nat
  total_gc_heaps : Nat
deriving DecidableEq, Repr

/-- The parsed outcome of each WASMTIME_POOLING environment lookup feeding
new_pooling_config: none when the variable is unset, malformed or not
UTF-8 (the getenv cases), some v when it is set and parses to v. -/
structure PoolingEnv where
  max_unused_warm_slots : Option Nat
  decommit_batch_size : Option Nat
  async_stack_zeroing : Option Bool
  async_stack_keep_resident : Option Nat
  linear_memory_keep_resident : Option Nat
  table_keep_resident : Option Nat
  total_component_instances : Option Nat
  max_component_instance_size : Option Nat
  max_core_instances_per_component : Option Nat
  max_memories_per_component : Option Nat
  max_tables_per_component : Option Nat
  total_memories : Option Nat
  total_tables : Option Nat
  total_stacks : Option Nat
  total_core_instances : Option Nat
  max_core_instance_size : Option Nat
  max_tables_per_module : Option Nat
  table_elements : Option Nat
  max_memories_per_module : Option Nat
  max_memory_size : Option Nat
  total_gc_heaps : Option Nat

/-- The new_pooling_config function of main.rs lines 57-136: starting from
the wasmtime default configuration, every knob with a parsed environment
override takes the override value; the six total count knobs otherwise take
the instances argument (the else branches at lines 79, 96, 101, 106, 111,
132); every other knob otherwise keeps its default. -/
def new_pooling_config (dflt : PoolingAllocationConfig) (env : PoolingEnv)
    (instances : Nat) : PoolingAllocationConfig where
  max_unused_warm_slots := (env.max_unused_warm_slots).getD dflt.max_unused_warm_slots
  decommit_batch_size := (env.decommit_batch_size).getD dflt.decommit_batch_size
  async_stack_zeroing := (env.async_stack_zeroing).getD dflt.async_stack_zeroing
  async_stack_keep_resident := (env.async_stack_keep_resident).getD dflt.async_stack_keep_resident
  linear_memory_keep_resident := (env.linear_memory_keep_resident).getD dflt.linear_memory_keep_resident
  table_keep_resident := (env.table_keep_resident).getD dflt.table_keep_resident
  total_component_instances := (env.total_component_instances).getD instances
  max_component_instance_size := (env.max_component_instance_size).getD dflt.max_component_instance_size
  max_core_instances_per_component := (env.max_core_instances_per_component).getD dflt.max_core_instances_per_component
  max_memories_per_component := (env.max_memories_per_component).getD dflt.max_memories_per_component
  max_tables_per_component := (env.max_tables_per_component).getD dflt.max_tables_per_component
  total_memories := (env.total_memories).getD instances
  total_tables := (env.total_tables).getD instances
  total_stacks := (env.total_stacks).getD instances
  total_core_instances := (env.total_core_instances).getD instances
  max_core_instance_size := (env.max_core_instance_size).getD dflt.max_core_instance_size
  max_tables_per_module := (env.max_tables_per_module).getD dflt.max_tables_per_module
  table_elements := (env.table_elements).getD dflt.table_elements
  max_memories_per_module := (env.max_memories_per_module).getD dflt.max_memories_per_module
  max_memory_size := (env.max_memory_size).getD dflt.max_memory_size
  total_gc_heaps := (env.total_gc_heaps).getD instances

/-- The pooling fan-out of the main.rs line 349 call site:
count saturating_mul 4 on usize, converted to u32 with u32::MAX substituted
on overflow.  In the Nat model the usize saturation is absorbed by the u32
clamp, leaving min (count * 4) (2 ^ 32 - 1). -/
def poolInstances (count : Nat) : Nat :=
  Nat.min (count * 4) (2 ^ 32 - 1)

/-- A sample default configuration, used only to witness the pooling
theorem. -/
def samplePoolingDefault : PoolingAllocationConfig where
  max_unused_warm_slots := 1001
  decommit_batch_size := 1002
  async_stack_zeroing := false
  async_stack_keep_resident := 1003
  linear_memory_keep_resident := 1004
  table_keep_resident := 1005
  total_component_instances := 1006
  max_component_instance_size := 1007
  max_core_instances_per_component := 1008
  max_memories_per_component := 1009
  max_tables_per_component := 1010
  total_memories := 1011
  total_tables := 1012
  total_stacks := 1013
  total_core_instances := 1014
  max_core_instance_size := 1015
  max_tables_per_module := 1016
  table_elements := 1017
  max_memories_per_module := 1018
  max_memory_size := 1019
  total_gc_heaps := 1020

/-- A sample environment for the pooling witness: one non-count override,
one count override, every other variable unset. -/
def samplePoolingEnv : PoolingEnv where
  max_unused_warm_slots := some 42
  decommit_batch_size := none
  async_stack_zeroing := none
  async_stack_keep_resident := none
  linear_memory_keep_resident := none
  table_keep_resident := none
  total_component_instances := some 5
  max_component_instance_size := none
  max_core_instances_per_component := none
  max_memories_per_component := none
  max_tables_per_component := none
  total_memories := none
  total_tables := none
  total_stacks := none
  total_core_instances := none
  max_core_instance_size := none
  max_tables_per_module := none
  table_elements := none
  max_memories_per_module := none
  max_memory_size := none
  total_gc_heaps := none

/-- The wasmtime instance allocation strategy: pooling with a sizing
configuration, or on-demand. -/
inductive InstanceAllocationStrategy where
  | pooling (config : PoolingAllocationConfig)
  | onDemand
deriving DecidableEq, Repr

/-- The engine construction sequence of main.rs lines 363-371, over an
abstract engine constructor (wasmtime itself is external): attempt
construction with the selected strategy; on failure retry exactly once with
the allocation strategy forced to on-demand; the second outcome is final. -/
def buildEngine {E : Type} (newEngine : InstanceAllocationStrategy → Except Unit E)
    (strategy : InstanceAllocationStrategy) :
    Except Unit (E × InstanceAllocationStrategy) :=
  match newEngine strategy with
  | .ok engine => .ok (engine, strategy)
  | .error _ =>
    match newEngine .onDemand with
    | .ok engine => .ok (engine, .onDemand)
    | .error e => .error e

/-- A sample engine constructor for the fallback witness: fails on pooling,
succeeds on-demand with engine 7. -/
def sampleEngineCtor : InstanceAllocationStrategy → Except Unit Nat
  | .pooling _ => .error ()
  | .onDemand => .ok 7

/-- The worker spawn loop of main.rs lines 376-460: iterate indices i,
i+1, ... for n steps; a successful thread spawn pushes the index and
continues; the first spawn failure breaks out of the loop. -/
def spawnLoop (spawn : Nat → Bool) : Nat → Nat → List Nat
  | _, 0 => []
  | i, n + 1 => if spawn i then i :: spawnLoop spawn (i + 1) n else []

/-- The worker indices spawned for a requested replica count (the loop for i
in 0..count of main.rs line 376). -/
def spawnWorkers (spawn : Nat → Bool) (count : Nat) : List Nat :=
  spawnLoop spawn 0 count

/-- A sample spawn predicate for witnesses: indices 0 and 1 spawn, index 2
fails. -/
def sampleSpawn (k : Nat) : Bool :=
  decide (k < 2)

/-- A sample spawn predicate for witnesses: every spawn fails. -/
def sampleSpawnNone (_ : Nat) : Bool :=
  false

/-- Failure classes of the orchestration steps after the spawn loop
(main.rs lines 461-473). -/
inductive OrchErr where
  | compileFailed
  | linkFailed
  | preFailed
  | sendClosed
deriving DecidableEq, Repr

/-- The orchestration tail of main.rs lines 461-473 following the spawn
loop: compile the component once (fatal on failure), link WASI and
wasi:http, pre-instantiate, then broadcast the compiled artifact in a
single send, which fails precisely when no subscriber is left.  The
subscriber count is modelled as the number of spawned workers: each loop
iteration subscribes before spawning and a failed spawn drops its
subscription.  On success the run proceeds to join exactly the spawned
workers. -/
def runMainTail (spawn : Nat → Bool) (count : Nat)
    (compileOk linkOk preOk : Bool) : Except OrchErr (List Nat) :=
  let tasks := spawnWorkers spawn count
  if !compileOk then .error .compileFailed
  else if !linkOk then .error .linkFailed
  else if !preOk then .error .preFailed
  else if tasks.length = 0 then .error .sendClosed
  else .ok tasks

/-- The failure points of a worker thread, tagging the anyhow context of
each fallible step of the closure at main.rs lines 384-445. -/
inductive WorkerErr where
  | createLeaf
  | setType
  | addThread
  | unshareFailed
  | buildRuntime
  | senderClosed
  | instantiateFailed
  | runFailed
  | doneReceiverClosed
deriving DecidableEq, Repr

/-- One worker thread's step outcomes, abstracting the kernel and wasmtime
calls of the closure at main.rs lines 384-445; call_run yields a Nat
payload standing for the component's exit result. -/
structure WorkerSteps where
  create_dir : Except Unit Unit
  write_type : Except Unit Unit
  write_threads : Except Unit Unit
  unshare_ns : Except Unit Unit
  build_runtime : Except Unit Unit
  recv_module : Except Unit Unit
  instantiate : Except Unit Unit
  call_run : Except Unit Nat
  done_receiver_alive : Bool
deriving Repr

/-- Observable outcome of one worker thread: whether the completion signal
was delivered, and the value the thread returns to the join step. -/
structure WorkerOutcome where
  signalled : Bool
  ret : Except WorkerErr (Except WorkerErr Nat)
deriving Repr

/-- The rt.block_on body of main.rs lines 411-440: receive the broadcast
module, instantiate it, run it; the first failure is captured as the body's
error result. -/
def blockOnResult (s : WorkerSteps) : Except WorkerErr Nat :=
  match s.recv_module with
  | .error _ => .error .senderClosed
  | .ok _ =>
    match s.instantiate with
    | .error _ => .error .instantiateFailed
    | .ok _ =>
      match s.call_run with
      | .error _ => .error .runFailed
      | .ok r => .ok r

/-- The worker thread closure of main.rs lines 384-445: the cgroup leaf
setup (create_dir_all, cgroup.type write, cgroup.threads write), the
namespace unshare and the runtime construction each return early on failure
through the question mark operator, skipping the completion send; the
block_on body's outcome is captured in res, after which the completion send
is attempted (failing only when the receiver is gone) and the closure
returns Ok(res), so execution errors travel inside the Ok of the thread
return value. -/
def workerRun (s : WorkerSteps) : WorkerOutcome :=
  match s.create_dir with
  | .error _ => ⟨false, .error .createLeaf⟩
  | .ok _ =>
    match s.write_type with
    | .error _ => ⟨false, .error .setType⟩
    | .ok _ =>
      match s.write_threads with
      | .error _ => ⟨false, .error .addThread⟩
      | .ok _ =>
        match s.unshare_ns with
        | .error _ => ⟨false, .error .unshareFailed⟩
        | .ok _ =>
          match s.build_runtime with
          | .error _ => ⟨false, .error .buildRuntime⟩
          | .ok _ =>
            let res := blockOnResult s
            if s.done_receiver_alive then ⟨true, .ok res⟩
            else ⟨false, .error .doneReceiverClosed⟩

/-- Events of the orchestrator main thread, in program order. -/
inductive MainEv where
  | unshareUser
  | enableRootControllers
  | createMidCgroup
  | setMidThreaded
  | addPidToMid
  | enableMidControllers
  | spawnWorker (i : Nat)
  | compileComponent
  | broadcastSend
deriving DecidableEq, Repr

/-- The main-thread event trace of main.rs lines 186-473 on a run reaching
the spawn loop: the process-scope user-namespace unshare of line 186 comes
first, then the root and mid-level cgroup writes of lines 297-342, the
spawn loop with one spawnWorker event per successfully spawned worker,
exactly one compilation, and the broadcast send only when compilation
succeeded. -/
def mainTrace (spawn : Nat → Bool) (count : Nat) (compileOk : Bool) :
    List MainEv :=
  [MainEv.unshareUser, MainEv.enableRootControllers, MainEv.createMidCgroup,
      MainEv.setMidThreaded, MainEv.addPidToMid, MainEv.enableMidControllers]
    ++ (spawnWorkers spawn count).map MainEv.spawnWorker
    ++ [MainEv.compileComponent]
    ++ (if compileOk then [MainEv.broadcastSend] else [])

/-- Events of one worker thread, in its own program order. -/
inductive WorkerEv where
  | createLeaf
  | setThreadedType
  | writeThreadId
  | unshareNamespaces
  | buildRuntime
  | blockOnBody
  | signalDone
deriving DecidableEq, Repr

/-- The event trace of one worker thread: an event is emitted when its step
is attempted, and the trace stops after the first failing setup step (the
question mark early returns of main.rs lines 386-409); the completion
signal event is emitted when the send is delivered. -/
def workerTrace (s : WorkerSteps) : List WorkerEv :=
  WorkerEv.createLeaf ::
    match s.create_dir with
    | .error _ => []
    | .ok _ =>
      WorkerEv.setThreadedType ::
        match s.write_type with
        | .error _ => []
        | .ok _ =>
          WorkerEv.writeThreadId ::
            match s.write_threads with
            | .error _ => []
            | .ok _ =>
              WorkerEv.unshareNamespaces ::
                match s.unshare_ns with
                | .error _ => []
                | .ok _ =>
                  WorkerEv.buildRuntime ::
                    match s.build_runtime with
                    | .error _ => []
                    | .ok _ =>
                      WorkerEv.blockOnBody ::
                        (if s.done_receiver_alive
                          then [WorkerEv.signalDone] else [])

end Cgwasm

namespace Cgwasm

/-- A string with a nonempty left part of an append is nonempty. -/
theorem append_ne_empty_left (s t : String) (h : s ≠ "") : s ++ t ≠ "" := by
  intro hc
  apply h
  have hd := congrArg String.data hc
  rw [String.data_append] at hd
  exact String.ext (List.append_eq_nil.mp hd).1

/-- String.join distributes over cons. -/
theorem join_cons (x : String) (xs : List String) :
    String.join (x :: xs) = x ++ String.join xs := by
  apply String.ext
  simp [String.join_eq, String.data_append]

/-- On a nonempty accumulator, a supported controller is appended with a
space and plus prefix. -/
theorem appendController_supported (s c : String) (hs : s ≠ "")
    (hc : supportedController c = true) :
    appendController s c = s ++ (" +" ++ c) := by
  unfold supportedController at hc
  simp only [Bool.or_eq_true, decide_eq_true_eq] at hc
  unfold appendController
  rcases hc with (hc | hc) | hc <;> subst hc <;> simp [hs]

/-- On the empty accumulator, a supported controller is appended with a plus
prefix only. -/
theorem appendController_empty_supported (c : String)
    (hc : supportedController c = true) :
    appendController "" c = "+" ++ c := by
  unfold supportedController at hc
  simp only [Bool.or_eq_true, decide_eq_true_eq] at hc
  rcases hc with (hc | hc) | hc <;> subst hc <;> rfl

/-- An unsupported token leaves the accumulator unchanged. -/
theorem appendController_unsupported (s c : String)
    (hc : supportedController c = false) :
    appendController s c = s := by
  unfold supportedController at hc
  simp only [Bool.or_eq_false_iff, decide_eq_false_iff_not] at hc
  obtain ⟨⟨h1, h2⟩, h3⟩ := hc
  simp [appendController, h1, h2, h3]

/-- Folding from a nonempty accumulator appends the supported tokens each
with a leading space and plus sign, in input order. -/
theorem foldl_appendController_ne_empty (toks : List String) :
    ∀ s : String, s ≠ "" →
      toks.foldl appendController s =
        s ++ String.join
          ((toks.filter supportedController).map (fun c => " +" ++ c)) := by
  induction toks with
  | nil =>
    intro s _
    rw [List.foldl_nil, List.filter_nil, List.map_nil]
    exact (String.append_empty s).symm
  | cons c toks ih =>
    intro s hs
    rw [List.foldl_cons]
    cases hc : supportedController c with
    | false =>
      rw [appendController_unsupported s c hc, ih s hs,
        List.filter_cons_of_neg (by simp [hc])]
    | true =>
      rw [appendController_supported s c hs hc,
        ih (s ++ (" +" ++ c)) (append_ne_empty_left s (" +" ++ c) hs),
        List.filter_cons_of_pos (by simp [hc]), List.map_cons, join_cons]
      simp [String.append_assoc]

/-- Folding from the empty accumulator yields the space-joined plus-prefixed
supported tokens, in input order. -/
theorem foldl_appendController_empty (toks : List String) :
    toks.foldl appendController "" =
      spaceJoin
        ((toks.filter supportedController).map (fun c => "+" ++ c)) := by
  induction toks with
  | nil => rfl
  | cons c toks ih =>
    rw [List.foldl_cons]
    cases hc : supportedController c with
    | false =>
      rw [appendController_unsupported _ c hc, ih,
        List.filter_cons_of_neg (by simp [hc])]
    | true =>
      have hf : ((fun t => " " ++ t) ∘ fun c : String => "+" ++ c) =
          fun c : String => " +" ++ c := by
        funext t
        show " " ++ ("+" ++ t) = " +" ++ t
        rw [← String.append_assoc]
        congr 1
      rw [appendController_empty_supported c hc,
        foldl_appendController_ne_empty toks ("+" ++ c)
          (append_ne_empty_left "+" c (by decide)),
        List.filter_cons_of_pos (by simp [hc]), List.map_cons,
        spaceJoin, List.map_map, hf]

/-- C1: with no explicit count, the pre-headroom count is
min(threads-max, NPROC, NOFILE); a numeric pids.max bounds it by
pids.max - pids.current, by pids.max alone when pids.current is missing,
and a pids.max of "max" (unlimited) applies no pids bound. -/
theorem deriveCount_pids_bounds (threadsMax nproc nofile : Nat) :
    (∀ s : String, strTrim s = "max" →
      ∀ pidsCurrent, deriveCount threadsMax nproc nofile (.ok s) pidsCurrent =
        .ok (Nat.min threadsMax (Nat.min nproc nofile)))
    ∧ (∀ s c : String, ∀ m k : Nat, parseNat? (strTrim s) = some m →
        parseNat? (strTrim c) = some k →
        deriveCount threadsMax nproc nofile (.ok s) (.ok c) =
          .ok (Nat.min (Nat.min threadsMax (Nat.min nproc nofile)) (m - k)))
    ∧ (∀ s : String, ∀ m : Nat, parseNat? (strTrim s) = some m →
        deriveCount threadsMax nproc nofile (.ok s) .errNotFound =
          .ok (Nat.min (Nat.min threadsMax (Nat.min nproc nofile)) m))
    ∧ (∀ pidsCurrent, deriveCount threadsMax nproc nofile .errNotFound pidsCurrent =
        .ok (Nat.min threadsMax (Nat.min nproc nofile))) := by
  refine ⟨?_, ?_, ?_, ?_⟩
  · intro s hs pidsCurrent
    simp [deriveCount, hs]
  · intro s c m k hm hk
    have hs : ¬ strTrim s = "max" := by
      intro h
      rw [h, (by decide : parseNat? "max" = none)] at hm
      exact Option.noConfusion hm
    simp [deriveCount, hs, hm, hk]
  · intro s m hm
    have hs : ¬ strTrim s = "max" := by
      intro h
      rw [h, (by decide : parseNat? "max" = none)] at hm
      exact Option.noConfusion hm
    simp [deriveCount, hs, hm]
  · intro pidsCurrent
    simp [deriveCount]

/-- Witness for deriveCount_pids_bounds at concrete inputs. -/
theorem deriveCount_pids_bounds_witness :
    deriveCount 100 50 60 (.ok "max") .errOther = .ok 50
    ∧ deriveCount 100 50 60 (.ok "30") (.ok "10") = .ok 20
    ∧ deriveCount 100 50 60 (.ok "30") .errNotFound = .ok 30
    ∧ deriveCount 100 50 60 .errNotFound .errOther = .ok 50 := by
  obtain ⟨h1, h2, h3, h4⟩ := deriveCount_pids_bounds 100 50 60
  refine ⟨h1 "max" (by decide) .errOther, ?_, ?_, h4 .errOther⟩
  · have := h2 "30" "10" 30 10 (by decide) (by decide)
    simpa using this
  · have := h3 "30" 30 (by decide)
    simpa using this

/-- C3: every successfully probed budget yields a replica count of at
least 1, and the all-limits-equal-1 boundary budget yields exactly 1. -/
theorem computeCount_pos (threadsMax nproc nofile : Nat)
    (pidsMax pidsCurrent : ReadFile) :
    (∀ n : Nat,
      computeCount none threadsMax nproc nofile pidsMax pidsCurrent = .ok n →
        1 ≤ n)
    ∧ computeCount none 1 1 1 (.ok "1") (.ok "1") = .ok 1 := by
  constructor
  · intro n hn
    unfold computeCount at hn
    cases hd : deriveCount threadsMax nproc nofile pidsMax pidsCurrent with
    | error e => rw [hd] at hn; exact Except.noConfusion hn
    | ok c =>
      rw [hd] at hn
      simp only [Except.map] at hn
      have h : Nat.max (c / 4) 1 = n := Except.ok.inj hn
      rw [← h]
      exact Nat.le_max_right (c / 4) 1
  · rfl

/-- Witness for computeCount_pos at a concrete budget evaluating to 2. -/
theorem computeCount_pos_witness :
    computeCount none 8 8 8 (.ok "max") .errNotFound = .ok 2 ∧ 1 ≤ 2 :=
  ⟨rfl, (computeCount_pos 8 8 8 (.ok "max") .errNotFound).1 2 rfl⟩

/-- C10: a numeric pids.max combined with a pids.current read failure other
than NotFound applies no pids-based bound: the pre-headroom count stays
min(threads-max, NPROC, NOFILE) and the derivation still succeeds. -/
theorem deriveCount_pidsCurrent_errOther (threadsMax nproc nofile : Nat)
    (s : String) (m : Nat) (hm : parseNat? (strTrim s) = some m) :
    deriveCount threadsMax nproc nofile (.ok s) .errOther =
      .ok (Nat.min threadsMax (Nat.min nproc nofile)) := by
  have hs : ¬ strTrim s = "max" := by
    intro h
    rw [h, (by decide : parseNat? "max" = none)] at hm
    exact Option.noConfusion hm
  simp [deriveCount, hs, hm]

/-- Witness for deriveCount_pidsCurrent_errOther: pids.max of 2 does not
bound the count 50 when pids.current reads with a non-NotFound error. -/
theorem deriveCount_pidsCurrent_errOther_witness :
    deriveCount 100 50 60 (.ok "2") .errOther = .ok 50 := by
  have := deriveCount_pidsCurrent_errOther 100 50 60 "2" 2 (by decide)
  simpa using this

/-- C2 counterexample: the enable string follows the input order of the
controller list, so the input listing pids, cpu, cpuset in that order does
not produce the claimed fixed-order string. -/
theorem controllerEnableString_not_order_stable :
    controllerEnableString "pids cpu cpuset" = "+pids +cpu +cpuset"
    ∧ controllerEnableString "pids cpu cpuset" ≠ "+cpuset +cpu +pids" := by
  constructor
  · decide
  · decide

/-- C2 amended: the enable string is exactly the tokens of the input lying
in the subset cpuset, cpu, pids, each prefixed with a plus sign,
space-joined, in the order they appear in the input; for the kernel's
canonical listing order it is the fixed string of the claim. -/
theorem controllerEnableString_input_order (input : String) :
    controllerEnableString input =
      spaceJoin
        (((splitWhitespace input).filter supportedController).map
          (fun c => "+" ++ c))
    ∧ controllerEnableString "cpuset cpu io memory hugetlb pids rdma misc" =
        "+cpuset +cpu +pids" :=
  ⟨foldl_appendController_empty _, by decide⟩

/-- C4: every pooling knob with a present, parsing override holds the
override verbatim; with the override unset or malformed, each of the six
total count knobs equals replica count times the fan-out factor 4, and every
other knob keeps its dedicated default; getenv ignores malformed and absent
values. -/
theorem new_pooling_config_spec (dflt : PoolingAllocationConfig)
    (env : PoolingEnv) (count : Nat) (h4 : count * 4 < 2 ^ 32) :
    (∀ v, env.max_unused_warm_slots = some v →
        (new_pooling_config dflt env (poolInstances count)).max_unused_warm_slots = v)
    ∧ (env.max_unused_warm_slots = none →
        (new_pooling_config dflt env (poolInstances count)).max_unused_warm_slots = dflt.max_unused_warm_slots)
    ∧ (∀ v, env.decommit_batch_size = some v →
        (new_pooling_config dflt env (poolInstances count)).decommit_batch_size = v)
    ∧ (env.decommit_batch_size = none →
        (new_pooling_config dflt env (poolInstances count)).decommit_batch_size = dflt.decommit_batch_size)
    ∧ (∀ v, env.async_stack_zeroing = some v →
        (new_pooling_config dflt env (poolInstances count)).async_stack_zeroing = v)
    ∧ (env.async_stack_zeroing = none →
        (new_pooling_config dflt env (poolInstances count)).async_stack_zeroing = dflt.async_stack_zeroing)
    ∧ (∀ v, env.async_stack_keep_resident = some v →
        (new_pooling_config dflt env (poolInstances count)).async_stack_keep_resident = v)
    ∧ (env.async_stack_keep_resident = none →
        (new_pooling_config dflt env (poolInstances count)).async_stack_keep_resident = dflt.async_stack_keep_resident)
    ∧ (∀ v, env.linear_memory_keep_resident = some v →
        (new_pooling_config dflt env (poolInstances count)).linear_memory_keep_resident = v)
    ∧ (env.linear_memory_keep_resident = none →
        (new_pooling_config dflt env (poolInstances count)).linear_memory_keep_resident = dflt.linear_memory_keep_resident)
    ∧ (∀ v, env.table_keep_resident = some v →
        (new_pooling_config dflt env (poolInstances count)).table_keep_resident = v)
    ∧ (env.table_keep_resident = none →
        (new_pooling_config dflt env (poolInstances count)).table_keep_resident = dflt.table_keep_resident)
    ∧ (∀ v, env.total_component_instances = some v →
        (new_pooling_config dflt env (poolInstances count)).total_component_instances = v)
    ∧ (env.total_component_instances = none →
        (new_pooling_config dflt env (poolInstances count)).total_component_instances = count * 4)
    ∧ (∀ v, env.max_component_instance_size = some v →
        (new_pooling_config dflt env (poolInstances count)).max_component_instance_size = v)
    ∧ (env.max_component_instance_size = none →
        (new_pooling_config dflt env (poolInstances count)).max_component_instance_size = dflt.max_component_instance_size)
    ∧ (∀ v, env.max_core_instances_per_component = some v →
        (new_pooling_config dflt env (poolInstances count)).max_core_instances_per_component = v)
    ∧ (env.max_core_instances_per_component = none →
        (new_pooling_config dflt env (poolInstances count)).max_core_instances_per_component = dflt.max_core_instances_per_component)
    ∧ (∀ v, env.max_memories_per_component = some v →
        (new_pooling_config dflt env (poolInstances count)).max_memories_per_component = v)
    ∧ (env.max_memories_per_component = none →
        (new_pooling_config dflt env (poolInstances count)).max_memories_per_component = dflt.max_memories_per_component)
    ∧ (∀ v, env.max_tables_per_component = some v →
        (new_pooling_config dflt env (poolInstances count)).max_tables_per_component = v)
    ∧ (env.max_tables_per_component = none →
        (new_pooling_config dflt env (poolInstances count)).max_tables_per_component = dflt.max_tables_per_component)
    ∧ (∀ v, env.total_memories = some v →
        (new_pooling_config dflt env (poolInstances count)).total_memories = v)
    ∧ (env.total_memories = none →
        (new_pooling_config dflt env (poolInstances count)).total_memories = count * 4)
    ∧ (∀ v, env.total_tables = some v →
        (new_pooling_config dflt env (poolInstances count)).total_tables = v)
    ∧ (env.total_tables = none →
        (new_pooling_config dflt env (poolInstances count)).total_tables = count * 4)
    ∧ (∀ v, env.total_stacks = some v →
        (new_pooling_config dflt env (poolInstances count)).total_stacks = v)
    ∧ (env.total_stacks = none →
        (new_pooling_config dflt env (poolInstances count)).total_stacks = count * 4)
    ∧ (∀ v, env.total_core_instances = some v →
        (new_pooling_config dflt env (poolInstances count)).total_core_instances = v)
    ∧ (env.total_core_instances = none →
        (new_pooling_config dflt env (poolInstances count)).total_core_instances = count * 4)
    ∧ (∀ v, env.max_core_instance_size = some v →
        (new_pooling_config dflt env (poolInstances count)).max_core_instance_size = v)
    ∧ (env.max_core_instance_size = none →
        (new_pooling_config dflt env (poolInstances count)).max_core_instance_size = dflt.max_core_instance_size)
    ∧ (∀ v, env.max_tables_per_module = some v →
        (new_pooling_config dflt env (poolInstances count)).max_tables_per_module = v)
    ∧ (env.max_tables_per_module = none →
        (new_pooling_config dflt env (poolInstances count)).max_tables_per_module = dflt.max_tables_per_module)
    ∧ (∀ v, env.table_elements = some v →
        (new_pooling_config dflt env (poolInstances count)).table_elements = v)
    ∧ (env.table_elements = none →
        (new_pooling_config dflt env (poolInstances count)).table_elements = dflt.table_elements)
    ∧ (∀ v, env.max_memories_per_module = some v →
        (new_pooling_config dflt env (poolInstances count)).max_memories_per_module = v)
    ∧ (env.max_memories_per_module = none →
        (new_pooling_config dflt env (poolInstances count)).max_memories_per_module = dflt.max_memories_per_module)
    ∧ (∀ v, env.max_memory_size = some v →
        (new_pooling_config dflt env (poolInstances count)).max_memory_size = v)
    ∧ (env.max_memory_size = none →
        (new_pooling_config dflt env (poolInstances count)).max_memory_size = dflt.max_memory_size)
    ∧ (∀ v, env.total_gc_heaps = some v →
        (new_pooling_config dflt env (poolInstances count)).total_gc_heaps = v)
    ∧ (env.total_gc_heaps = none →
        (new_pooling_config dflt env (poolInstances count)).total_gc_heaps = count * 4)
    ∧ (∀ s : String, ∀ parse : String → Option Nat, parse s = none →
        getenv (.val s) parse = none)
    ∧ (∀ s : String, ∀ v : Nat, ∀ parse : String → Option Nat,
        parse s = some v → getenv (.val s) parse = some v)
    ∧ (∀ parse : String → Option Nat, getenv .notPresent parse = none) := by
  have hpi : poolInstances count = count * 4 := Nat.min_eq_left (by omega)
  refine ⟨?_, ?_, ?_, ?_, ?_, ?_, ?_, ?_, ?_, ?_, ?_, ?_, ?_, ?_, ?_, ?_, ?_, ?_, ?_, ?_, ?_, ?_, ?_, ?_, ?_, ?_, ?_, ?_, ?_, ?_, ?_, ?_, ?_, ?_, ?_, ?_, ?_, ?_, ?_, ?_, ?_, ?_, ?_, ?_, ?_⟩ <;>
    first
      | (intro v h
         simp [new_pooling_config, h])
      | (intro h
         simp [new_pooling_config, h, hpi])
      | (intro s parse h
         simp [getenv, h])
      | (intro s v parse h
         simp [getenv, h])
      | (intro parse
         simp [getenv])

/-- Witness for new_pooling_config_spec: count 2, an overridden non-count
knob, an overridden count knob, an unset count knob and an unset non-count
knob. -/
theorem new_pooling_config_spec_witness :
    (new_pooling_config samplePoolingDefault samplePoolingEnv
      (poolInstances 2)).max_unused_warm_slots = 42
    ∧ (new_pooling_config samplePoolingDefault samplePoolingEnv
        (poolInstances 2)).total_component_instances = 5
    ∧ (new_pooling_config samplePoolingDefault samplePoolingEnv
        (poolInstances 2)).total_memories = 2 * 4
    ∧ (new_pooling_config samplePoolingDefault samplePoolingEnv
        (poolInstances 2)).table_elements = samplePoolingDefault.table_elements := by
  have H := new_pooling_config_spec samplePoolingDefault samplePoolingEnv 2 (by decide)
  exact ⟨H.1 42 rfl, H.2.2.2.2.2.2.2.2.2.2.2.2.1 5 rfl, H.2.2.2.2.2.2.2.2.2.2.2.2.2.2.2.2.2.2.2.2.2.2.2.1 rfl, H.2.2.2.2.2.2.2.2.2.2.2.2.2.2.2.2.2.2.2.2.2.2.2.2.2.2.2.2.2.2.2.2.2.2.2.1 rfl⟩

/-- spawnLoop stops at the first failing index: on a window of n indices
starting at i whose first spawn failure is at offset j, it yields exactly
the first j indices. -/
theorem spawnLoop_first_failure (spawn : Nat → Bool) :
    ∀ n i j, j < n → spawn (i + j) = false →
      (∀ k, k < j → spawn (i + k) = true) →
      spawnLoop spawn i n = List.range' i j := by
  intro n
  induction n with
  | zero =>
    intro i j hj _ _
    exact absurd hj (Nat.not_lt_zero j)
  | succ n ih =>
    intro i j hj hfail hok
    cases j with
    | zero =>
      have h0 : spawn i = false := by simpa using hfail
      simp [spawnLoop, h0]
    | succ j =>
      have h0 : spawn i = true := by simpa using hok 0 (Nat.succ_pos j)
      have hfail2 : spawn (i + 1 + j) = false := by
        have he : i + 1 + j = i + (j + 1) := by omega
        rw [he]
        exact hfail
      have hok2 : ∀ k, k < j → spawn (i + 1 + k) = true := by
        intro k hk
        have he : i + 1 + k = i + (k + 1) := by omega
        rw [he]
        exact hok (k + 1) (by omega)
      simp only [spawnLoop, h0, if_true]
      rw [ih (i + 1) j (by omega) hfail2 hok2, List.range'_succ]

/-- C7: workers spawn sequentially by index and the first thread-creation
failure at index j stops all further spawning; the spawned workers are
exactly the indices below j and, when at least one worker spawned, the run
proceeds through the orchestration tail with exactly those workers. -/
theorem spawn_failure_partial_capacity (spawn : Nat → Bool) (count j : Nat)
    (hj : j < count) (hfail : spawn j = false)
    (hok : ∀ k, k < j → spawn k = true) :
    spawnWorkers spawn count = List.range j
    ∧ (1 ≤ j → runMainTail spawn count true true true = .ok (List.range j)) := by
  have hsw : spawnWorkers spawn count = List.range j := by
    unfold spawnWorkers
    rw [spawnLoop_first_failure spawn count 0 j hj (by simpa using hfail)
      (by simpa using hok)]
    exact (List.range_eq_range' j).symm
  refine ⟨hsw, fun h1 => ?_⟩
  have hne : ¬ (List.range j).length = 0 := by
    simp only [List.length_range]
    omega
  simp only [runMainTail, hsw, Bool.not_true, Bool.false_eq_true,
    if_false, hne, if_neg hne]

/-- Witness for spawn_failure_partial_capacity: requested count 4, spawn
failing first at index 2, run proceeds with workers 0 and 1. -/
theorem spawn_failure_partial_capacity_witness :
    spawnWorkers sampleSpawn 4 = List.range 2
    ∧ runMainTail sampleSpawn 4 true true true = .ok (List.range 2) := by
  have H := spawn_failure_partial_capacity sampleSpawn 4 2 (by omega) (by decide)
    (fun k hk => by
      simp only [sampleSpawn, decide_eq_true_eq]
      omega)
  exact ⟨H.1, H.2 (by omega)⟩

/-- C8: the compiled module is broadcast in a single send placed directly
after the one compilation, a zero-subscriber send (no worker survived
spawning) is a fatal error, and no send happens when compilation fails. -/
theorem broadcast_once_zero_subscribers_fatal (spawn : Nat → Bool)
    (count : Nat) :
    (spawnWorkers spawn count = [] →
      runMainTail spawn count true true true = .error .sendClosed)
    ∧ (∃ l, mainTrace spawn count true =
          l ++ [MainEv.compileComponent, MainEv.broadcastSend]
        ∧ MainEv.broadcastSend ∉ l ∧ MainEv.compileComponent ∉ l)
    ∧ MainEv.broadcastSend ∉ mainTrace spawn count false := by
  refine ⟨fun hsw => ?_, ⟨[MainEv.unshareUser, MainEv.enableRootControllers,
    MainEv.createMidCgroup, MainEv.setMidThreaded, MainEv.addPidToMid,
    MainEv.enableMidControllers]
    ++ (spawnWorkers spawn count).map MainEv.spawnWorker, ?_, ?_, ?_⟩, ?_⟩
  · simp [runMainTail, hsw]
  · simp [mainTrace]
  · simp
  · simp
  · simp [mainTrace]

/-- Witness for broadcast_once_zero_subscribers_fatal: no spawn succeeds,
so the send has no subscriber and the run aborts. -/
theorem broadcast_once_zero_subscribers_fatal_witness :
    spawnWorkers sampleSpawnNone 3 = []
    ∧ runMainTail sampleSpawnNone 3 true true true = .error .sendClosed := by
  have H := broadcast_once_zero_subscribers_fatal sampleSpawnNone 3
  exact ⟨rfl, H.1 rfl⟩

/-- C6: engine construction is attempted once with the selected strategy;
on failure it is retried exactly once with the strategy forced to
on-demand, whose success lets the run proceed on-demand and whose failure
is final. -/
theorem engine_fallback {E : Type}
    (newEngine : InstanceAllocationStrategy → Except Unit E)
    (strategy : InstanceAllocationStrategy) :
    (∀ e, newEngine strategy = .ok e →
      buildEngine newEngine strategy = .ok (e, strategy))
    ∧ (∀ e, newEngine strategy = .error () → newEngine .onDemand = .ok e →
        buildEngine newEngine strategy = .ok (e, .onDemand))
    ∧ (newEngine strategy = .error () → newEngine .onDemand = .error () →
        buildEngine newEngine strategy = .error ()) := by
  refine ⟨fun e he => ?_, fun e h1 h2 => ?_, fun h1 h2 => ?_⟩ <;>
    simp [buildEngine, *]

/-- Witness for engine_fallback: pooling construction fails, the on-demand
retry succeeds and the run proceeds with the on-demand strategy. -/
theorem engine_fallback_witness :
    sampleEngineCtor (.pooling samplePoolingDefault) = .error ()
    ∧ buildEngine sampleEngineCtor (.pooling samplePoolingDefault) =
        .ok (7, .onDemand) := by
  have H := engine_fallback sampleEngineCtor (.pooling samplePoolingDefault)
  exact ⟨rfl, H.2.1 7 rfl rfl⟩

/-- C5 counterexample: a worker whose cgroup leaf creation fails returns
the error without signalling its completion channel, contradicting the
claim that every step failure still signals completion. -/
theorem worker_setup_failure_skips_signal :
    (workerRun ⟨.error (), .ok (), .ok (), .ok (), .ok (), .ok (), .ok (),
      .ok 0, true⟩).signalled = false
    ∧ (workerRun ⟨.error (), .ok (), .ok (), .ok (), .ok (), .ok (), .ok (),
        .ok 0, true⟩).ret = .error .createLeaf :=
  ⟨rfl, rfl⟩

/-- C5 amended: failures during module wait, instantiation or execution
still signal completion and carry the error inside the Ok of the thread
return value; failures in the setup steps (cgroup leaf creation, type and
thread-id writes, namespace unshare, runtime construction) return the error
as the thread return value without sending on the completion channel,
which the orchestrator tolerates because the dropped sender closes the
channel and unblocks its await. -/
theorem workerRun_failure_semantics (s : WorkerSteps)
    (halive : s.done_receiver_alive = true) :
    (s.create_dir = .ok () → s.write_type = .ok () →
      s.write_threads = .ok () → s.unshare_ns = .ok () →
      s.build_runtime = .ok () →
      workerRun s = ⟨true, .ok (blockOnResult s)⟩)
    ∧ (s.create_dir = .error () →
        workerRun s = ⟨false, .error .createLeaf⟩)
    ∧ (s.create_dir = .ok () → s.write_type = .error () →
        workerRun s = ⟨false, .error .setType⟩)
    ∧ (s.create_dir = .ok () → s.write_type = .ok () →
        s.write_threads = .error () →
        workerRun s = ⟨false, .error .addThread⟩)
    ∧ (s.create_dir = .ok () → s.write_type = .ok () →
        s.write_threads = .ok () → s.unshare_ns = .error () →
        workerRun s = ⟨false, .error .unshareFailed⟩)
    ∧ (s.create_dir = .ok () → s.write_type = .ok () →
        s.write_threads = .ok () → s.unshare_ns = .ok () →
        s.build_runtime = .error () →
        workerRun s = ⟨false, .error .buildRuntime⟩)
    ∧ (s.recv_module = .error () →
        blockOnResult s = .error .senderClosed)
    ∧ (s.recv_module = .ok () → s.instantiate = .error () →
        blockOnResult s = .error .instantiateFailed)
    ∧ (s.recv_module = .ok () → s.instantiate = .ok () →
        s.call_run = .error () →
        blockOnResult s = .error .runFailed) := by
  refine ⟨fun h1 h2 h3 h4 h5 => ?_, fun h1 => ?_, fun h1 h2 => ?_,
    fun h1 h2 h3 => ?_, fun h1 h2 h3 h4 => ?_, fun h1 h2 h3 h4 h5 => ?_,
    fun h1 => ?_, fun h1 h2 => ?_, fun h1 h2 h3 => ?_⟩ <;>
    simp [workerRun, blockOnResult, halive, *]

/-- Witness for workerRun_failure_semantics: a run failure is signalled and
returned inside the Ok of the thread return value. -/
theorem workerRun_failure_semantics_witness :
    workerRun ⟨.ok (), .ok (), .ok (), .ok (), .ok (), .ok (), .ok (),
      .error (), true⟩ = ⟨true, .ok (.error .runFailed)⟩ := by
  have H := workerRun_failure_semantics
    ⟨.ok (), .ok (), .ok (), .ok (), .ok (), .ok (), .ok (), .error (), true⟩
    rfl
  exact H.1 rfl rfl rfl rfl rfl

/-- C9: the process-scope user-namespace unshare is the first event of the
main thread trace and never recurs (hence it precedes every worker spawn),
and on a worker thread the namespace unshare happens only as the fourth
event, after leaf creation, the threaded-type write and the thread-id
write. -/
theorem user_unshare_and_leaf_order (spawn : Nat → Bool) (count : Nat)
    (compileOk : Bool) (s : WorkerSteps) :
    (mainTrace spawn count compileOk =
        MainEv.unshareUser :: (mainTrace spawn count compileOk).tail
      ∧ MainEv.unshareUser ∉ (mainTrace spawn count compileOk).tail)
    ∧ (WorkerEv.unshareNamespaces ∈ workerTrace s →
        (workerTrace s).take 4 =
          [WorkerEv.createLeaf, WorkerEv.setThreadedType,
            WorkerEv.writeThreadId, WorkerEv.unshareNamespaces]) := by
  refine ⟨⟨?_, ?_⟩, ?_⟩
  · simp [mainTrace]
  · simp [mainTrace]
  · intro hmem
    obtain ⟨cd, wt, wth, un, br, rm, ins, cr, alive⟩ := s
    cases cd <;> cases wt <;> cases wth <;> simp_all [workerTrace]

/-- Witness for user_unshare_and_leaf_order at a concrete trace and worker. -/
theorem user_unshare_and_leaf_order_witness :
    (workerTrace ⟨.ok (), .ok (), .ok (), .ok (), .ok (), .ok (), .ok (),
        .ok 0, true⟩).take 4 =
      [WorkerEv.createLeaf, WorkerEv.setThreadedType, WorkerEv.writeThreadId,
        WorkerEv.unshareNamespaces]
    ∧ mainTrace sampleSpawn 4 true =
        MainEv.unshareUser :: (mainTrace sampleSpawn 4 true).tail := by
  have H := user_unshare_and_leaf_order sampleSpawn 4 true
    ⟨.ok (), .ok (), .ok (), .ok (), .ok (), .ok (), .ok (), .ok 0, true⟩
  exact ⟨H.2 (by decide), H.1.1⟩

end Cgwasm
